import Mathlib

/-
Verification of the body-composition calibration engine
(docs/js/calibration.js of michaellevy/body-comp-dash).

The engine is pure arithmetic over JS numbers. We embed it over ℚ:
every constant in the source is a decimal literal, hence an exact
rational, and every operation used (add, sub, mul, div, min, max,
comparisons) is exact on these inputs, so the rational embedding
computes the same values the ideal-real reading of the source does.
`Option ℚ` models a JS value that may fail to be a finite number:
`none` stands for null/undefined (absent field), for NaN/Infinity
(a division by zero in a slope), or for a thrown TypeError (indexing
past the end of the anchor table); `some q` is the finite number q.
-/

/-- JS division producing a finite result: `none` models the NaN or
±Infinity that JS produces when the denominator is 0. -/
def jsDiv (a b : ℚ) : Option ℚ :=
  if b = 0 then none else some (a / b)

-- ── Muscle% linear model (MUSCLE_MODEL in the source) ──

structure LinModel where
  intercept : ℚ
  weightCoef : ℚ
  fatCoef : ℚ
deriving DecidableEq

def MUSCLE_MODEL : LinModel :=
  { intercept := 48.85907224831961
    weightCoef := 0.011898676042334806
    fatCoef := -0.5854039862344727 }

-- ── Weight correction constant (WEIGHT_BIAS in the source) ──

def WEIGHT_BIAS : ℚ := 1.3

-- ── Fat% bias anchor points (FAT_BIAS_ANCHORS in the source) ──
-- pairs [raw_scale_weight_lbs, bias_pp]

def FAT_BIAS_ANCHORS : List (ℚ × ℚ) :=
  [(167.8000, 4.0000),
   (172.3470, 4.4028),
   (183.0000, 7.1000)]

-- ── Muscle% affine calibration (MUSCLE_CAL in the source) ──

structure AffineCal where
  slope : ℚ
  intercept : ℚ
deriving DecidableEq

def MUSCLE_CAL : AffineCal := { slope := 1.1320982020, intercept := 0.8285357352 }

-- ── fatBiasForWeight ──

/-- The `for` loop of `fatBiasForWeight`: scan consecutive anchor pairs
for the first bracketing segment and interpolate within it; `none` is the
fall-through past the loop (JS returns undefined there) or a NaN from a
zero-width segment. -/
def bracketLoop : List (ℚ × ℚ) → ℚ → Option ℚ
  | p :: q :: rest, w =>
    if p.1 ≤ w ∧ w ≤ q.1 then
      (jsDiv (w - p.1) (q.1 - p.1)).map (fun t => p.2 + t * (q.2 - p.2))
    else bracketLoop (q :: rest) w
  | _, _ => none

/-- Given the first two anchors and the rest, return
(second-to-last anchor, last anchor) of the whole table. -/
def lastTwo : (ℚ × ℚ) → (ℚ × ℚ) → List (ℚ × ℚ) → (ℚ × ℚ) × (ℚ × ℚ)
  | a, b, [] => (a, b)
  | _, b, c :: rest => lastTwo b c rest

/-- `fatBiasForWeight`, generic in the anchor table `pts` so that the
degenerate-table behaviour can be analysed.  For fewer than two anchors the
source indexes past the end of the table and throws, modelled `none`.
Below the lowest anchor it extrapolates along the first segment, above the
highest along the last segment, otherwise it interpolates via the loop. -/
def fatBiasGen (pts : List (ℚ × ℚ)) (w : ℚ) : Option ℚ :=
  match pts with
  | p0 :: p1 :: rest =>
    if w ≤ p0.1 then
      (jsDiv (p1.2 - p0.2) (p1.1 - p0.1)).map (fun s => p0.2 + s * (w - p0.1))
    else
      let q2 := (lastTwo p0 p1 rest).1
      let q1 := (lastTwo p0 p1 rest).2
      if q1.1 ≤ w then
        (jsDiv (q1.2 - q2.2) (q1.1 - q2.1)).map (fun s => q1.2 + s * (w - q1.1))
      else bracketLoop (p0 :: p1 :: rest) w
  | _ => none

/-- `fatBiasForWeight` of the source: the generic lookup applied to the
shipped anchor table. -/
def fatBiasForWeight (w : ℚ) : Option ℚ :=
  fatBiasGen FAT_BIAS_ANCHORS w

-- ── Measurement records ──

/-- A measurement row `{date, weight, fat_percent, ...}`.  Fields the JS
object may lack (or that may hold a non-finite number) are `Option ℚ`,
`none` meaning no finite numeric value is present. -/
structure Row where
  date : String
  weight : Option ℚ
  fat_percent : Option ℚ
  fat_percent_cal : Option ℚ
  muscle_percent : Option ℚ
  fat_lbs : Option ℚ
  muscle_lbs : Option ℚ
deriving DecidableEq

/-- The body of `rows.map(...)` in `calibrate`.  A missing `fat_percent`
or `weight` passes the row through unchanged; otherwise the corrected
weight, clamped corrected fat%, calibrated muscle% and the two masses are
written.  The `none` arm of the bias lookup models the NaN that a
degenerate anchor table would propagate into every derived field; for the
shipped table it is unreachable (proved below). -/
def calibrateOne (r : Row) : Row :=
  match r.fat_percent, r.weight with
  | some fp, some w =>
    let corrWeight := w - WEIGHT_BIAS
    match fatBiasForWeight w with
    | some fatBias =>
      let corrFat := min (max (fp - fatBias) 5) 35
      let rawMuscle := MUSCLE_MODEL.intercept
        + corrWeight * MUSCLE_MODEL.weightCoef
        + corrFat * MUSCLE_MODEL.fatCoef
      let musclePct := MUSCLE_CAL.slope * rawMuscle + MUSCLE_CAL.intercept
      { r with
        weight := some corrWeight
        fat_percent_cal := some corrFat
        muscle_percent := some musclePct
        fat_lbs := some (corrWeight * corrFat / 100)
        muscle_lbs := some (corrWeight * musclePct / 100) }
    | none =>
      { r with
        weight := some corrWeight
        fat_percent_cal := none
        muscle_percent := none
        fat_lbs := none
        muscle_lbs := none }
  | _, _ => r

/-- `calibrate(rows)` of the source: map the per-row calibration over the
input list, building a new list of new rows. -/
def calibrate (rows : List Row) : List Row :=
  rows.map calibrateOne

-- ── Concrete rows used to instantiate the theorems ──

/-- The exact-first-anchor example row:
`{date:"2025-02-01", weight:167.8, fatPercent:18.6}`. -/
def rowAnchor : Row :=
  { date := "2025-02-01", weight := some 167.8, fat_percent := some 18.6,
    fat_percent_cal := none, muscle_percent := none, fat_lbs := none, muscle_lbs := none }

/-- A weight-only row: `{date:"2025-04-01", weight:100}`, no fat%. -/
def rowNoFat : Row :=
  { date := "2025-04-01", weight := some 100, fat_percent := none,
    fat_percent_cal := none, muscle_percent := none, fat_lbs := none, muscle_lbs := none }

/-- The interpolation example row: `{date:"2025-01-01", weight:170, fatPercent:18}`. -/
def rowMid : Row :=
  { date := "2025-01-01", weight := some 170, fat_percent := some 18,
    fat_percent_cal := none, muscle_percent := none, fat_lbs := none, muscle_lbs := none }

/-- Same measurements as `rowMid` on a different date. -/
def rowMidLater : Row :=
  { date := "2026-01-01", weight := some 170, fat_percent := some 18,
    fat_percent_cal := none, muscle_percent := none, fat_lbs := none, muscle_lbs := none }

-- ── Closed form of the shipped bias lookup (proof helper) ──

/-- Closed form of `fatBiasForWeight` on the shipped table: the
extrapolation branches lie on the same lines as the adjacent segments, so
the whole lookup is two half-lines meeting at the middle anchor. -/
def biasClosed (w : ℚ) : ℚ :=
  if w ≤ 172.347 then
    4 + (4.4028 - 4) / (172.347 - 167.8) * (w - 167.8)
  else
    4.4028 + (7.1 - 4.4028) / (183 - 172.347) * (w - 172.347)

theorem fatBias_closed (w : ℚ) : fatBiasForWeight w = some (biasClosed w) := by
  simp only [fatBiasForWeight, fatBiasGen, FAT_BIAS_ANCHORS, lastTwo, bracketLoop,
    jsDiv, biasClosed]
  norm_num
  rcases le_or_lt w (839 / 5 : ℚ) with h1 | h1
  · rw [if_pos h1, if_pos (show w ≤ (172347 / 1000 : ℚ) by linarith)]
  · rw [if_neg (not_le.mpr h1)]
    rcases le_or_lt (183 : ℚ) w with h2 | h2
    · rw [if_pos h2, if_neg (show ¬ w ≤ (172347 / 1000 : ℚ) by push_neg; linarith)]
      congr 1
      ring_nf
    · rw [if_neg (not_le.mpr h2)]
      rcases le_or_lt w (172347 / 1000 : ℚ) with h3 | h3
      · rw [if_pos ⟨le_of_lt h1, h3⟩, if_pos h3]
        congr 1
        field_simp
        ring
      · rw [if_neg (show ¬ ((839 / 5 : ℚ) ≤ w ∧ w ≤ 172347 / 1000) by
            intro hc; exact absurd hc.2 (not_le.mpr h3)),
          if_pos ⟨le_of_lt h3, le_of_lt h2⟩, if_neg (not_le.mpr h3)]
        congr 1
        field_simp
        ring

theorem fatBias_at_first : fatBiasForWeight 167.8 = some 4 := by
  rw [fatBias_closed]
  norm_num [biasClosed]

theorem fatBias_at_mid : fatBiasForWeight 172.347 = some 4.4028 := by
  rw [fatBias_closed]
  norm_num [biasClosed]

theorem fatBias_at_last : fatBiasForWeight 183 = some 7.1 := by
  rw [fatBias_closed]
  norm_num [biasClosed]

/-- Evaluation of the calibration body once both fields are present and the
bias lookup returned a finite value. -/
theorem calibrateOne_some_eq (r : Row) (w fp b : ℚ)
    (hw : r.weight = some w) (hf : r.fat_percent = some fp)
    (hb : fatBiasForWeight w = some b) :
    calibrateOne r =
      { r with
        weight := some (w - WEIGHT_BIAS)
        fat_percent_cal := some (min (max (fp - b) 5) 35)
        muscle_percent := some (MUSCLE_CAL.slope * (MUSCLE_MODEL.intercept
          + (w - WEIGHT_BIAS) * MUSCLE_MODEL.weightCoef
          + min (max (fp - b) 5) 35 * MUSCLE_MODEL.fatCoef) + MUSCLE_CAL.intercept)
        fat_lbs := some ((w - WEIGHT_BIAS) * min (max (fp - b) 5) 35 / 100)
        muscle_lbs := some ((w - WEIGHT_BIAS) * (MUSCLE_CAL.slope * (MUSCLE_MODEL.intercept
          + (w - WEIGHT_BIAS) * MUSCLE_MODEL.weightCoef
          + min (max (fp - b) 5) 35 * MUSCLE_MODEL.fatCoef) + MUSCLE_CAL.intercept) / 100) } := by
  simp only [calibrateOne, hw, hf, hb]

/-- C1: for a record with both weight and fat% present, `calibrate` yields
the input record with weight replaced by weight − 1.3, fat% replaced by the
clamped bias-corrected value (bias looked up at the RAW weight), muscle%
from the affinely calibrated linear model on the corrected inputs, and the
two masses derived from the corrected weight. -/
theorem calibrate_record_formulas (r : Row) (w fp b : ℚ)
    (hw : r.weight = some w) (hf : r.fat_percent = some fp)
    (hb : fatBiasForWeight w = some b) :
    calibrate [r] =
      [{ r with
          weight := some (w - 1.3)
          fat_percent_cal := some (min (max (fp - b) 5) 35)
          muscle_percent := some (MUSCLE_CAL.slope * (MUSCLE_MODEL.intercept
            + (w - 1.3) * MUSCLE_MODEL.weightCoef
            + min (max (fp - b) 5) 35 * MUSCLE_MODEL.fatCoef) + MUSCLE_CAL.intercept)
          fat_lbs := some ((w - 1.3) * min (max (fp - b) 5) 35 / 100)
          muscle_lbs := some ((w - 1.3) * (MUSCLE_CAL.slope * (MUSCLE_MODEL.intercept
            + (w - 1.3) * MUSCLE_MODEL.weightCoef
            + min (max (fp - b) 5) 35 * MUSCLE_MODEL.fatCoef) + MUSCLE_CAL.intercept)
            / 100) }] := by
  simp only [calibrate, List.map_cons, List.map_nil]
  rw [calibrateOne_some_eq r w fp b hw hf hb]
  norm_num [WEIGHT_BIAS]

theorem calibrate_record_formulas_witness :
    calibrate [rowAnchor] =
      [{ rowAnchor with
          weight := some ((167.8 : ℚ) - 1.3)
          fat_percent_cal := some (min (max ((18.6 : ℚ) - 4) 5) 35)
          muscle_percent := some (MUSCLE_CAL.slope * (MUSCLE_MODEL.intercept
            + ((167.8 : ℚ) - 1.3) * MUSCLE_MODEL.weightCoef
            + min (max ((18.6 : ℚ) - 4) 5) 35 * MUSCLE_MODEL.fatCoef)
            + MUSCLE_CAL.intercept)
          fat_lbs := some (((167.8 : ℚ) - 1.3) * min (max ((18.6 : ℚ) - 4) 5) 35 / 100)
          muscle_lbs := some (((167.8 : ℚ) - 1.3) * (MUSCLE_CAL.slope
            * (MUSCLE_MODEL.intercept + ((167.8 : ℚ) - 1.3) * MUSCLE_MODEL.weightCoef
            + min (max ((18.6 : ℚ) - 4) 5) 35 * MUSCLE_MODEL.fatCoef)
            + MUSCLE_CAL.intercept) / 100) }] :=
  calibrate_record_formulas rowAnchor 167.8 18.6 4 rfl rfl fatBias_at_first

/-- C2: the piecewise shape of `fatBiasForWeight` — linear extrapolation
along the first segment below the first anchor, along the last segment
above the last anchor, and fractional-position interpolation within the
bracketing segment in between. -/
theorem fatBias_piecewise (w : ℚ) :
    (w ≤ 167.8 → fatBiasForWeight w =
      some (4 + (4.4028 - 4) / (172.347 - 167.8) * (w - 167.8))) ∧
    ((183 : ℚ) ≤ w → fatBiasForWeight w =
      some (7.1 + (7.1 - 4.4028) / (183 - 172.347) * (w - 183))) ∧
    ((167.8 : ℚ) ≤ w → w ≤ 172.347 → fatBiasForWeight w =
      some (4 + (w - 167.8) / (172.347 - 167.8) * (4.4028 - 4))) ∧
    ((172.347 : ℚ) ≤ w → w ≤ 183 → fatBiasForWeight w =
      some (4.4028 + (w - 172.347) / (183 - 172.347) * (7.1 - 4.4028))) := by
  refine ⟨fun h1 => ?_, fun h2 => ?_, fun h3 h4 => ?_, fun h5 h6 => ?_⟩ <;>
    rw [fatBias_closed] <;> unfold biasClosed <;> congr 1
  · rw [if_pos (show w ≤ (172.347 : ℚ) by norm_num at h1 ⊢; linarith)]
  · rw [if_neg (show ¬ w ≤ (172.347 : ℚ) by norm_num at h2 ⊢; linarith)]
    field_simp
    ring
  · rw [if_pos h4]
    field_simp
    ring
  · rcases le_or_lt w (172.347 : ℚ) with h7 | h7
    · have hw : w = (172.347 : ℚ) := le_antisymm h7 h5
      rw [if_pos h7, hw]
      norm_num
    · rw [if_neg (not_le.mpr h7)]
      field_simp
      ring

theorem fatBias_piecewise_witness :
    fatBiasForWeight 170 =
      some (4 + ((170 : ℚ) - 167.8) / (172.347 - 167.8) * (4.4028 - 4)) :=
  (fatBias_piecewise 170).2.2.1 (by norm_num) (by norm_num)

/-- C3: a record missing fat% or weight passes through `calibrate`
unchanged — every original field intact, no calibrated field added. -/
theorem calibrate_passthrough (r : Row)
    (h : r.fat_percent = none ∨ r.weight = none) :
    calibrate [r] = [r] := by
  have hone : calibrateOne r = r := by
    unfold calibrateOne
    rcases hf : r.fat_percent with _ | fp <;> rcases hw : r.weight with _ | w <;>
      try rfl
    rcases h with h | h
    · rw [hf] at h
      exact absurd h (by simp)
    · rw [hw] at h
      exact absurd h (by simp)
  simp [calibrate, hone]

theorem calibrate_passthrough_witness : calibrate [rowNoFat] = [rowNoFat] :=
  calibrate_passthrough rowNoFat (Or.inl rfl)

/-- C4: each anchor evaluates to exactly its own bias, and the
exact-first-anchor record gets corrected fat% exactly 18.6 − 4 = 14.6. -/
theorem fatBias_anchor_exactness :
    fatBiasForWeight 167.8 = some 4 ∧
    fatBiasForWeight 172.347 = some 4.4028 ∧
    fatBiasForWeight 183 = some 7.1 ∧
    (calibrateOne rowAnchor).fat_percent_cal = some 14.6 := by
  refine ⟨fatBias_at_first, fatBias_at_mid, fatBias_at_last, ?_⟩
  rw [calibrateOne_some_eq rowAnchor 167.8 18.6 4 rfl rfl fatBias_at_first]
  norm_num [min_def, max_def]

/-- C5: whenever both fields are present the output fat% is clamped into
[5, 35]; an undershoot lands on exactly 5 and an overshoot on exactly 35. -/
theorem calibrate_fat_clamped (r : Row) (w fp b : ℚ)
    (hw : r.weight = some w) (hf : r.fat_percent = some fp)
    (hb : fatBiasForWeight w = some b) :
    ∃ c : ℚ, (calibrateOne r).fat_percent_cal = some c ∧
      5 ≤ c ∧ c ≤ 35 ∧ (fp - b ≤ 5 → c = 5) ∧ (35 ≤ fp - b → c = 35) := by
  refine ⟨min (max (fp - b) 5) 35, ?_, ?_, ?_, ?_, ?_⟩
  · rw [calibrateOne_some_eq r w fp b hw hf hb]
  · exact le_min (le_max_right _ _) (by norm_num)
  · exact min_le_right _ _
  · intro hle
    rw [max_eq_right hle]
    exact min_eq_left (by norm_num)
  · intro hge
    rw [max_eq_left (le_trans (by norm_num) hge), min_eq_right hge]

theorem calibrate_fat_clamped_witness :
    ∃ c : ℚ, (calibrateOne rowAnchor).fat_percent_cal = some c ∧
      5 ≤ c ∧ c ≤ 35 ∧ ((18.6 : ℚ) - 4 ≤ 5 → c = 5) ∧ (35 ≤ (18.6 : ℚ) - 4 → c = 35) :=
  calibrate_fat_clamped rowAnchor 167.8 18.6 4 rfl rfl fatBias_at_first

/-- C6 counterexample: nothing in calibration.js validates the anchor
table.  With a degenerate table (two anchors with the same weight, i.e. a
zero-length extrapolation segment) the per-record bias lookup still runs
and silently yields a non-finite value (`none`, the NaN of the zero-width
slope) instead of the engine having refused to initialize. -/
theorem fatBias_degenerate_nan :
    fatBiasGen [(170, 4), (170, 5)] 170 = none := by
  norm_num [fatBiasGen, lastTwo, jsDiv]

/-- C6 amended: the shipped table is statically non-degenerate — three
anchors, strictly increasing weights — and with it every lookup returns a
finite value; no load-time validation exists in the code. -/
theorem fatBias_shipped_nondegenerate :
    FAT_BIAS_ANCHORS.length = 3 ∧
    FAT_BIAS_ANCHORS.Chain' (fun a b => a.1 < b.1) ∧
    ∀ w : ℚ, (fatBiasGen FAT_BIAS_ANCHORS w).isSome = true := by
  refine ⟨rfl, ?_, fun w => ?_⟩
  · norm_num [FAT_BIAS_ANCHORS, List.chain'_cons]
  · rw [show fatBiasGen FAT_BIAS_ANCHORS w = fatBiasForWeight w from rfl,
      fatBias_closed]
    rfl

/-- C7: `calibrate` returns exactly one output row per input row, in the
same order — the row at index i of the output is the calibration of the
row at index i of the input, with no filtering, reordering or
deduplication (and, the embedding being pure, no mutation of the input). -/
theorem calibrate_one_per_record (rows : List Row) :
    (calibrate rows).length = rows.length ∧
    ∀ i : ℕ, (calibrate rows).get? i = (rows.get? i).map calibrateOne := by
  refine ⟨?_, fun i => ?_⟩ <;> simp [calibrate]

/-- C8: the output row depends only on the corresponding input row — in
particular not on its position (calibration commutes with every
permutation of the input) and not on its date (changing the date of a row
changes only the date of its output). -/
theorem calibrate_pointwise_and_perm :
    (∀ (n : ℕ) (f : Fin n → Row) (σ : Equiv.Perm (Fin n)),
      calibrate (List.ofFn (f ∘ σ)) = List.ofFn ((fun i => calibrateOne (f i)) ∘ σ) ∧
      (calibrate (List.ofFn (f ∘ σ))).Perm (calibrate (List.ofFn f))) ∧
    (∀ (r : Row) (d : String),
      calibrateOne { r with date := d } = { calibrateOne r with date := d }) := by
  constructor
  · intro n f σ
    constructor
    · simp [calibrate, List.map_ofFn]
      rfl
    · exact (Equiv.Perm.ofFn_comp_perm σ f).map calibrateOne
  · intro r d
    unfold calibrateOne
    rcases hf : r.fat_percent with _ | fp <;> rcases hw : r.weight with _ | w <;>
      simp only [hf, hw]
    rcases hb : fatBiasForWeight w with _ | b
    · simp only [hb]
    · simp only [hb]

/-- C9: the engine is total on well-formed input — the bias lookup returns
a finite value for every rational weight (the fall-through past the
bracket-search loop is unreachable on the shipped table) and every
calibrated field written for a fully populated row is a defined number. -/
theorem calibrate_total_defined :
    (∀ w : ℚ, ∃ b : ℚ, fatBiasForWeight w = some b) ∧
    (∀ (r : Row) (w fp : ℚ), r.weight = some w → r.fat_percent = some fp →
      ((calibrateOne r).weight).isSome = true ∧
      ((calibrateOne r).fat_percent_cal).isSome = true ∧
      ((calibrateOne r).muscle_percent).isSome = true ∧
      ((calibrateOne r).fat_lbs).isSome = true ∧
      ((calibrateOne r).muscle_lbs).isSome = true) := by
  constructor
  · intro w
    exact ⟨biasClosed w, fatBias_closed w⟩
  · intro r w fp hw hf
    rw [calibrateOne_some_eq r w fp (biasClosed w) hw hf (fatBias_closed w)]
    exact ⟨rfl, rfl, rfl, rfl, rfl⟩

theorem calibrate_total_defined_witness :
    ((calibrateOne rowMid).fat_percent_cal).isSome = true :=
  (calibrate_total_defined.2 rowMid 170 18 rfl rfl).2.1

/-- C10: with the shipped anchors every segment slope is positive, so the
bias lookup is strictly increasing over all rational raw weights. -/
theorem fatBias_strictMono (w1 w2 b1 b2 : ℚ) (hlt : w1 < w2)
    (h1 : fatBiasForWeight w1 = some b1) (h2 : fatBiasForWeight w2 = some b2) :
    b1 < b2 := by
  rw [fatBias_closed] at h1 h2
  have e1 : biasClosed w1 = b1 := by injection h1
  have e2 : biasClosed w2 = b2 := by injection h2
  subst e1
  subst e2
  unfold biasClosed
  split_ifs with ha hb
  · norm_num
    linarith
  · norm_num
    linarith
  · norm_num
    linarith
  · norm_num
    linarith

theorem fatBias_strictMono_witness : (4 : ℚ) < 7.1 :=
  fatBias_strictMono 167.8 183 4 7.1 (by norm_num) fatBias_at_first fatBias_at_last
